import Mathlib

/-!
Verification development for the lkdin-scrapooor repository: a shallow
embedding of the pure/control-flow parts of src/main.py, src/firefox.py,
src/playwright_scraper.py and src/utils.py, with theorems settling the
spec claims about them.
-/

namespace Scrapooor

/-! ### Email extraction (src/main.py line 107, src/playwright_scraper.py line 150)

Both files use the Python regex

  r. \b[A-Za-z0-9._%+-]+@[A-Za-z0-9.-]+\.[A-Z|a-z]{2,}\b

with re.findall.  We embed Python re backtracking semantics for this fixed
pattern.  Note the final character class [A-Z|a-z] literally contains the
bar character, and the pattern is anchored by word boundaries on both
sides; the engine below is parameterized on the final class and on whether
the boundary assertions are present, so the source pattern and the pattern
as the spec describes it (letters only, no boundaries) are two
instantiations of the same engine. -/

/-- Word characters for the regex word-boundary assertion, for the ASCII
inputs relevant here: letters, digits and underscore. -/
def isWordChar (c : Char) : Bool :=
  c.isAlphanum || c == '_'

/-- The local-part class [A-Za-z0-9._%+-]. -/
def isLocalChar (c : Char) : Bool :=
  c.isAlphanum || c == '.' || c == '_' || c == '%' || c == '+' || c == '-'

/-- The domain class [A-Za-z0-9.-]. -/
def isDomainChar (c : Char) : Bool :=
  c.isAlphanum || c == '.' || c == '-'

/-- The final class of the pattern as written in the source: [A-Z|a-z],
which contains the literal bar character besides the letters. -/
def isTldCharCode (c : Char) : Bool :=
  c.isAlpha || c == '|'

/-- The final class as the spec describes the pattern: letters only. -/
def isTldCharSpec (c : Char) : Bool :=
  c.isAlpha

/-- An instantiation of the email pattern: the final character class, and
whether the two word-boundary assertions are present. -/
structure EmailPat where
  tld : Char → Bool
  anchored : Bool

/-- Length of the longest prefix whose characters all satisfy p
(the greedy run a Python character-class repetition consumes first). -/
def runLen (p : Char → Bool) : List Char → Nat
  | [] => 0
  | c :: cs => if p c then runLen p cs + 1 else 0

def isWordOpt : Option Char → Bool
  | none => false
  | some c => isWordChar c

/-- Python word boundary between an optional previous and next character
(out of range counts as a non-word position). -/
def atBoundary (prev next : Option Char) : Bool :=
  isWordOpt prev != isWordOpt next

/-- Backtracking over the final {2,} repetition: s starts at the first
character of the repetition, and candidates u are tried from the greedy
run length downwards; a candidate is accepted when u is at least 2 and the
trailing word-boundary assertion (if present) holds between character u-1
and character u. Returns the accepted length. -/
def tldBack (pat : EmailPat) (s : List Char) : Nat → Option Nat
  | 0 => none
  | u + 1 =>
    if u + 1 < 2 then none
    else if pat.anchored && !atBoundary (s.get? u) (s.get? (u + 1)) then
      tldBack pat s u
    else some (u + 1)

/-- Backtracking over the domain repetition followed by the literal dot:
s starts at the first domain character; the candidate domain length k+1 is
tried from the greedy run length downwards; the character at index k+1
must be the dot, and the final repetition must then succeed on the rest.
Returns the matched length from the start of the domain. -/
def domBack (pat : EmailPat) (s : List Char) : Nat → Option Nat
  | 0 => none
  | k + 1 =>
    (match s.get? (k + 1) with
     | some c =>
       if c = '.' then
         let rest := s.drop (k + 2)
         match tldBack pat rest (runLen pat.tld rest) with
         | some t => some (k + 2 + t)
         | none => domBack pat s k
       else domBack pat s k
     | none => domBack pat s k)

/-- Attempt a match of the whole pattern at the start of s, with prev the
character immediately before s in the subject (for the leading boundary
assertion).  Backtracking over the local-part repetition is vacuous
because the @ sign is not in the local class, so only the greedy local
run can be followed by @. Returns the total match length. -/
def matchHere (pat : EmailPat) (prev : Option Char) (s : List Char) : Option Nat :=
  if pat.anchored && !atBoundary prev s.head? then none
  else
    let m := runLen isLocalChar s
    if m = 0 then none
    else
      match s.get? m with
      | some c =>
        if c = '@' then
          let rest := s.drop (m + 1)
          match domBack pat rest (runLen isDomainChar rest) with
          | some n => some (m + 1 + n)
          | none => none
        else none
      | none => none

/-- The re.findall scan: try a match at each position from left to right;
on success emit the matched substring and resume right after it, otherwise
advance one character.  fuel bounds the recursion and is instantiated with
the subject length plus one, which is enough since every step consumes at
least one character. -/
def scanAll (pat : EmailPat) : Nat → Option Char → List Char → List (List Char)
  | 0, _, _ => []
  | _ + 1, _, [] => []
  | fuel + 1, prev, c :: rest =>
    match matchHere pat prev (c :: rest) with
    | some n =>
      (c :: rest).take n ::
        scanAll pat fuel ((c :: rest).get? (n - 1)) ((c :: rest).drop n)
    | none => scanAll pat fuel (some c) rest

/-- re.findall of an email pattern over a subject string. -/
def pyFindAll (pat : EmailPat) (s : String) : List String :=
  (scanAll pat (s.toList.length + 1) none s.toList).map fun l => String.mk l

/-- The source pattern of src/main.py line 107 and
src/playwright_scraper.py line 150: bar in the final class, boundary
assertions present. -/
def emailFindAllCode (s : String) : List String :=
  pyFindAll { tld := isTldCharCode, anchored := true } s

/-- The pattern exactly as the spec sentence describes it: final class is
letters only, and no boundary assertions are mentioned. -/
def emailFindAllClaim (s : String) : List String :=
  pyFindAll { tld := isTldCharSpec, anchored := false } s

/-! ### Post URL resolver (src/utils.py lines 29-42, check_post_url) -/

/-- Outcome of check_post_url: either it returns a URL to the caller, or
the process terminates (sys.exit() with no argument gives status 0,
sys.exit(1) gives status 1). -/
inductive UrlResolution where
  | returns (url : String)
  | exitStatus (code : Nat)
deriving DecidableEq

/-- Python str.lower for the ASCII inputs relevant here, over the
character list (Lean's String.toLower is an equivalent loop that the
kernel cannot unfold, so the list form is used throughout). -/
def py_lower (s : String) : String :=
  String.mk (s.toList.map Char.toLower)

/-- src/utils.py check_post_url.  The interactive inputs are passed as
arguments: choice is the answer to "Do you want to enter url now?" and
entered is the URL typed at the second prompt (consumed only on the "y"
branch).  Python string truthiness makes `if not post_url` the empty-string
test. -/
def check_post_url (post_url : String) (choice : String) (entered : String) :
    UrlResolution :=
  if post_url = "" then
    if py_lower choice = "y" then UrlResolution.returns entered
    else if py_lower choice = "n" then UrlResolution.exitStatus 0
    else UrlResolution.exitStatus 1
  else UrlResolution.returns post_url

/-! ### Avatar downloader (src/utils.py lines 75-97, download_avatars) -/

/-- Python str.replace for a single-character pattern (the two patterns
used by the source, "." and " ", are single characters): every occurrence
of pat is replaced by rep. -/
def py_replace_char (pat : Char) (rep : List Char) : List Char → List Char
  | [] => []
  | c :: rest =>
    if c = pat then rep ++ py_replace_char pat rep rest
    else c :: py_replace_char pat rep rest

/-- The filename sanitization of src/utils.py lines 81-83:
filename.lower().replace(".", "").replace(" ", "-") applied to each
display name. -/
def sanitize_filenames (filenames : List String) : List String :=
  filenames.map fun filename =>
    String.mk
      (py_replace_char ' ' ['-']
        (py_replace_char '.' [] ((py_lower filename).toList)))

/-- os.mkdir against a file-system state modelled as the list of existing
directories: raises (FileExistsError) when the directory exists, otherwise
creates it. -/
def os_mkdir (dirs : List String) (dir_name : String) :
    Except Unit (List String) :=
  if dir_name ∈ dirs then Except.error () else Except.ok (dir_name :: dirs)

/-- The directory-creation step of download_avatars (src/utils.py lines
76-79): os.mkdir wrapped in try/except pass, so the exception from a
pre-existing directory is swallowed and the state is left unchanged. -/
def download_avatars_mkdir (dirs : List String) (dir_name : String) :
    List String :=
  match os_mkdir dirs dir_name with
  | Except.ok dirs2 => dirs2
  | Except.error _ => dirs

/-- Destination path of one avatar (src/utils.py line 95):
f-string dir_name/filename.jpg. -/
def avatar_path (dir_name : String) (filename : String) : String :=
  dir_name ++ "/" ++ filename ++ ".jpg"

/-! ### Grouped per-article extraction (src/main.py lines 102-159) -/

/-- An img element inside the profile-link anchor: its src attribute, none
when the attribute is absent (img.get("src", "") then defaults to ""). -/
structure ImgElem where
  src : Option String
deriving DecidableEq

/-- The a.comments-comment-meta__image-link element: its href attribute
(none when absent, defaulted to "" by .get("href", "")) and its first img
descendant if any. -/
structure AnchorElem where
  href : Option String
  img : Option ImgElem
deriving DecidableEq

/-- One article.comments-comment-entity element, abstracting the
BeautifulSoup subtree: each field holds the stripped text (or attribute
content) that the corresponding select_one / find call inside
extract_data_from_html would produce, none when the selector matches no
element. -/
structure CommentArticle where
  /-- span.comments-comment-meta__description-title text -/
  nameTitleSpan : Option String
  /-- h3.comments-comment-meta__description span text (fallback name) -/
  nameDescSpan : Option String
  /-- div.comments-comment-meta__description-subtitle text -/
  headlineDiv : Option String
  /-- a.comments-comment-meta__image-link element -/
  imageLink : Option AnchorElem
  /-- span.comments-comment-item__main-content text -/
  commentSpan : Option String
  /-- div.comments-comment-item__main-content text (fallback comment) -/
  commentDiv : Option String
deriving DecidableEq

/-- A model of urllib.parse.urljoin against the fixed base
"https://www.linkedin.com/", covering the href shapes this scraper meets:
empty href yields the base, absolute URLs pass through, root-relative
hrefs are resolved against the origin, other relative hrefs against the
base. -/
def urljoin (base : String) (url : String) : String :=
  if url = "" then base
  else if url.startsWith "http://" || url.startsWith "https://" then url
  else if url.startsWith "/" then "https://www.linkedin.com" ++ url
  else base ++ url

/-- One extracted record of src/main.py (dict keys "Name", "Profile Link",
"Profile Picture", "Headline", "Email", "Comment"). -/
structure CommentRecord where
  name : String
  profile_link : String
  profile_picture : String
  headline : String
  email : String
  comment : String
deriving DecidableEq

/-- The per-article body of the extraction loop in src/main.py lines
113-157: name from the title span with the description-span fallback,
headline from the subtitle div, profile link and avatar from the
image-link anchor, comment text from the main-content span with the div
fallback, and emails found by re.findall on the comment text (only run
when a comment element was found). -/
def article_record (a : CommentArticle) : CommentRecord :=
  let name :=
    match a.nameTitleSpan with
    | some t => t
    | none =>
      match a.nameDescSpan with
      | some t => t
      | none => ""
  let headline := a.headlineDiv.getD ""
  let profile_link :=
    match a.imageLink with
    | some al => urljoin "https://www.linkedin.com/" (al.href.getD "")
    | none => ""
  let avatar :=
    match a.imageLink with
    | some al =>
      match al.img with
      | some im => im.src.getD ""
      | none => ""
    | none => ""
  let commentElem :=
    match a.commentSpan with
    | some t => some t
    | none => a.commentDiv
  let comment_text := commentElem.getD ""
  let emails :=
    match commentElem with
    | some t => emailFindAllCode t
    | none => []
  { name := name
    profile_link := profile_link
    profile_picture := avatar
    headline := headline
    email := String.intercalate ", " emails
    comment := comment_text }

/-- src/main.py extract_data_from_html: iterate over the found comment
articles, appending a record exactly when the article yielded a non-empty
name or a non-empty comment text (Python truthiness of `name or
comment_text`). -/
def extract_data_from_html (articles : List CommentArticle) :
    List CommentRecord :=
  articles.foldl
    (fun data article =>
      let r := article_record article
      if (r.name != "") || (r.comment != "") then data ++ [r] else data)
    []

/-! ### Record writer (src/main.py lines 161-172 and
src/playwright_scraper.py lines 279-290, write_to_csv; the two functions
are textually identical) -/

/-- The header csv.DictWriter derives from the keys of the first record
(src/main.py); every record produced by extract_data_from_html has exactly
these keys in this insertion order. -/
def record_keys : List String :=
  ["Name", "Profile Link", "Profile Picture", "Headline", "Email", "Comment"]

/-- The row csv.DictWriter writes for one record: the values in fieldname
order. -/
def record_values (r : CommentRecord) : List String :=
  [r.name, r.profile_link, r.profile_picture, r.headline, r.email, r.comment]

/-- Observable outcome of write_to_csv: either nothing is written (the
early return before the file is even opened, after printing "No data to
write."), or a file holding a header row and data rows. -/
inductive WriteOutcome where
  | noData
  | file (header : List String) (rows : List (List String))
deriving DecidableEq

/-- src/main.py write_to_csv: empty data returns before opening the file;
otherwise a DictWriter with fieldnames data[0].keys() writes the header
and then one row per record. -/
def write_to_csv (data : List CommentRecord) : WriteOutcome :=
  match data with
  | [] => WriteOutcome.noData
  | _ :: _ => WriteOutcome.file record_keys (data.map record_values)

/-- The console message write_to_csv prints: the no-data report on the
empty branch, the success report otherwise. -/
def write_to_csv_message (data : List CommentRecord) (filename : String) :
    String :=
  match data with
  | [] => "No data to write."
  | _ :: _ => "✓ Data written to " ++ filename

/-! ### Playwright grouped extraction (src/playwright_scraper.py lines
145-201, extract_data_from_html)

The module's import list (lines 1-10) is asyncio, csv, json, argparse,
datetime, pathlib, urllib.parse, playwright and bs4 — the name re is never
imported, yet line 188 evaluates re.findall.  In Python an unbound module
name raises NameError at evaluation time, so the extractor raises as soon
as it reaches line 188, which happens exactly when a comment article has a
non-empty comment text (the call sits under `if comment_text:`). -/

/-- One article element as queried by the Playwright extractor, which has
no fallback selectors: the title span, the subtitle div, the image-link
anchor, and the main-content span. -/
structure PwCommentArticle where
  nameTitleSpan : Option String
  headlineDiv : Option String
  imageLink : Option AnchorElem
  commentSpan : Option String
deriving DecidableEq

/-- The runtime error the Playwright extractor can raise: the NameError
from evaluating the unbound name re at line 188. -/
inductive PyRunError where
  | nameError
deriving DecidableEq

/-- Record part of one Playwright article (dict keys "name",
"profile_link", "avatar", "headline", "email", "comment"; same six fields
as the Chrome extractor's record, so the same record structure is
reused). Only reached when comment_text is empty, in which case emails
stays [] and the email field is "". -/
def pw_article_record (a : PwCommentArticle) : CommentRecord :=
  { name := a.nameTitleSpan.getD ""
    profile_link :=
      match a.imageLink with
      | some al => urljoin "https://www.linkedin.com/" (al.href.getD "")
      | none => ""
    profile_picture :=
      match a.imageLink with
      | some al =>
        match al.img with
        | some im => im.src.getD ""
        | none => ""
      | none => ""
    headline := a.headlineDiv.getD ""
    email := String.intercalate ", " []
    comment := a.commentSpan.getD "" }

/-- src/playwright_scraper.py extract_data_from_html: the loop over
comment articles.  A non-empty comment_text reaches line 188
(`emails = re.findall(...)`) and raises NameError, aborting the whole
extraction; an empty comment_text skips that line, and the record is
appended exactly when the name is non-empty (`if name or comment_text`
with comment_text known empty). -/
def pw_extract_data_from_html (articles : List PwCommentArticle) :
    Except PyRunError (List CommentRecord) :=
  match articles with
  | [] => Except.ok []
  | a :: rest =>
    let comment_text := a.commentSpan.getD ""
    if comment_text != "" then Except.error PyRunError.nameError
    else
      match pw_extract_data_from_html rest with
      | Except.error e => Except.error e
      | Except.ok data =>
        if (a.nameTitleSpan.getD "") != "" then
          Except.ok (pw_article_record a :: data)
        else Except.ok data

/-! ### Firefox flat extraction path (src/firefox.py lines 200-245) -/

/-- Modelled from the spec: extract_emails is imported by src/firefox.py
from utils but src/utils.py as captured does not define it (spec §9,
"cross-module contract drift").  Per spec §4.4 and §4.8 it extracts all
email matches globally from the whole comment list in encounter order,
using the loose email pattern as the spec describes it. -/
def extract_emails (comments : List String) : List String :=
  comments.foldl (fun acc c => acc ++ emailFindAllClaim c) []

/-- The six parallel field lists of the Firefox/Selenium flat-extraction
path, in the order they are assembled in src/firefox.py. -/
structure FlatLists where
  names : List String
  profile_links : List String
  avatars : List String
  headlines : List String
  emails : List String
  comments : List String
deriving DecidableEq

/-- One Python padding statement lst += [""] * (n - len(lst)); a negative
repetition count yields the empty list in Python, matching truncated Nat
subtraction. -/
def pad_list (l : List String) (n : Nat) : List String :=
  l ++ List.replicate (n - l.length) ""

/-- src/firefox.py lines 231-240: max_len is the maximum over FIVE of the
six list lengths — the emails list is not an argument of the max call on
line 232 — and then each of the six lists, emails included, is padded
with empty strings up to max_len. -/
def firefox_pad_lists (fl : FlatLists) : FlatLists :=
  let max_len :=
    max fl.names.length
      (max fl.profile_links.length
        (max fl.avatars.length
          (max fl.headlines.length fl.comments.length)))
  { names := pad_list fl.names max_len
    profile_links := pad_list fl.profile_links max_len
    avatars := pad_list fl.avatars max_len
    headlines := pad_list fl.headlines max_len
    emails := pad_list fl.emails max_len
    comments := pad_list fl.comments max_len }

/-- The quantity the claim speaks about: the maximum over all SIX list
lengths, emails included. -/
def six_max (fl : FlatLists) : Nat :=
  max fl.names.length
    (max fl.profile_links.length
      (max fl.avatars.length
        (max fl.headlines.length
          (max fl.emails.length fl.comments.length))))

/-- Modelled from the spec: write_data2csv is imported by src/firefox.py
from utils but src/utils.py as captured does not define it (spec §9).
Per spec §4.5 the aligned-column writer emits the fixed header row and
then one row per index over six equal-length parallel sequences; on
sequences of unequal length, same-index pairing can only reach the
shortest sequence, so this model emits one row per common index. -/
def write_data2csv (fl : FlatLists) : List (List String) :=
  let rows :=
    min fl.names.length
      (min fl.profile_links.length
        (min fl.avatars.length
          (min fl.headlines.length
            (min fl.emails.length fl.comments.length))))
  ["Name", "Profile Link", "Profile Picture", "Headline", "Email",
    "Comment"] ::
    (List.range rows).map fun i =>
      [fl.names.getD i "", fl.profile_links.getD i "", fl.avatars.getD i "",
        fl.headlines.getD i "", fl.emails.getD i "", fl.comments.getD i ""]

/-! ### Configuration loading across the three pipelines -/

/-- The parsed content of a valid config.json, reduced to the keys the
startup code reads before any browser work. -/
structure ConfigData where
  post_url : Option String
  filename : Option String
deriving DecidableEq

/-- State of the config.json file when a pipeline starts. -/
inductive ConfigFile where
  | missing
  | invalidJson
  | valid (c : ConfigData)
deriving DecidableEq

/-- What the configuration-loading step of a pipeline does to the process:
terminate via exit(code) or sys.exit, terminate via an uncaught exception
(which makes the interpreter exit with status 1 after a traceback), finish
the whole program by a normal return (process status 0 once main ends), or
proceed into the rest of the pipeline with the loaded configuration. -/
inductive StartOutcome where
  | exited (code : Nat)
  | raised
  | returnedNormally
  | proceeded (c : ConfigData)
deriving DecidableEq

/-- src/main.py lines 185-190: open("config.json") / json.load under
`except (FileNotFoundError, json.JSONDecodeError)` which prints and calls
exit(1); the browser is launched only later (line 215). -/
def main_py_load_config : ConfigFile → StartOutcome
  | ConfigFile.missing => StartOutcome.exited 1
  | ConfigFile.invalidJson => StartOutcome.exited 1
  | ConfigFile.valid c => StartOutcome.proceeded c

/-- src/firefox.py lines 70-79: the same load with two except clauses,
FileNotFoundError and json.JSONDecodeError, each printing and calling
exit(1); the driver is created only later (line 120). -/
def firefox_load_config : ConfigFile → StartOutcome
  | ConfigFile.missing => StartOutcome.exited 1
  | ConfigFile.invalidJson => StartOutcome.exited 1
  | ConfigFile.valid c => StartOutcome.proceeded c

/-- src/playwright_scraper.py lines 305-311: the load catches ONLY
FileNotFoundError, printing "Error: config.json not found" and then
executing a plain `return` from main — a normal completion, so the process
exits with status 0.  json.JSONDecodeError is not caught anywhere, so an
invalid file raises out of main (status 1 via traceback).  The browser is
launched only inside scrape_post_comments, after this step. -/
def playwright_load_config : ConfigFile → StartOutcome
  | ConfigFile.missing => StartOutcome.returnedNormally
  | ConfigFile.invalidJson => StartOutcome.raised
  | ConfigFile.valid c => StartOutcome.proceeded c

/-- The exit status of the process when the startup step did not proceed
into the pipeline: exit(code) gives code, an uncaught exception gives 1, a
normal return from main gives 0 (none when the pipeline proceeded and the
exit status is decided later). -/
def process_exit_code : StartOutcome → Option Nat
  | StartOutcome.exited code => some code
  | StartOutcome.raised => some 1
  | StartOutcome.returnedNormally => some 0
  | StartOutcome.proceeded _ => none

/-! ### Playwright CLI arguments and session handling
(src/playwright_scraper.py lines 203-277 and 292-303) -/

/-- The parsed argument namespace of the Playwright CLI. -/
structure PwArgs where
  headless : Bool
  show_replies : Bool
  save_page_source : Bool
  use_session : Bool
  manual_login : Bool
  username : Option String
  password : Option String
deriving DecidableEq

/-- The argparse defaults of src/playwright_scraper.py lines 295-301: all
store_true flags default to False except use_session, declared with
action="store_true" AND default=True. -/
def pw_default_args : PwArgs :=
  { headless := false
    show_replies := false
    save_page_source := false
    use_session := true
    manual_login := false
    username := none
    password := none }

/-- The argument parser of src/playwright_scraper.py lines 293-303 on a
token vector, in the plain one-token-per-flag form: each recognized
store_true flag sets its field to True, --username and --password consume
the following token, and anything else is an argparse error (argparse
prints usage and exits with status 2), modelled as none. -/
def parse_pw_args : List String → PwArgs → Option PwArgs
  | [], a => some a
  | arg :: rest, a =>
    if arg = "--headless" then
      parse_pw_args rest { a with headless := true }
    else if arg = "--show-replies" then
      parse_pw_args rest { a with show_replies := true }
    else if arg = "--save-page-source" then
      parse_pw_args rest { a with save_page_source := true }
    else if arg = "--use-session" then
      parse_pw_args rest { a with use_session := true }
    else if arg = "--manual-login" then
      parse_pw_args rest { a with manual_login := true }
    else if arg = "--username" then
      match rest with
      | v :: rest2 => parse_pw_args rest2 { a with username := some v }
      | [] => none
    else if arg = "--password" then
      match rest with
      | v :: rest2 => parse_pw_args rest2 { a with password := some v }
      | [] => none
    else none

/-- The observable steps of scrape_post_comments, in execution order. -/
inductive PwEvent where
  | contextFromSession
  | freshContext
  | manualLoginFlow
  | credentialLoginFlow
  | sessionSaved
  | loginFailed
  | abortNoLoginMethod
  | navigate (url : String)
  | extract
deriving DecidableEq

/-- Control flow of src/playwright_scraper.py scrape_post_comments (lines
203-277).  Line 214: the context is created from the stored session state
when the session file exists and args.use_session holds, from scratch
otherwise.  Line 224: the login block runs only when the session file does
not exist or use_session is off; inside it, --manual-login selects the
manual flow, else credentials select the programmatic flow, else the run
aborts with "No session found"; a successful flow saves the session.  A
failed or absent login returns None before any navigation; otherwise the
function navigates to the post URL and extracts.  The success of the two
login flows depends on the live site and is passed in as two booleans. -/
def scrape_post_comments (post_url : String) (args : PwArgs)
    (session_file_exists : Bool) (manual_login_ok : Bool)
    (cred_login_ok : Bool) : List PwEvent :=
  let ctxEv :=
    if session_file_exists && args.use_session then PwEvent.contextFromSession
    else PwEvent.freshContext
  if !session_file_exists || !args.use_session then
    if args.manual_login then
      if manual_login_ok then
        [ctxEv, PwEvent.manualLoginFlow, PwEvent.sessionSaved,
          PwEvent.navigate post_url, PwEvent.extract]
      else [ctxEv, PwEvent.manualLoginFlow, PwEvent.loginFailed]
    else if args.username.isSome && args.password.isSome then
      if cred_login_ok then
        [ctxEv, PwEvent.credentialLoginFlow, PwEvent.sessionSaved,
          PwEvent.navigate post_url, PwEvent.extract]
      else [ctxEv, PwEvent.credentialLoginFlow, PwEvent.loginFailed]
    else [ctxEv, PwEvent.abortNoLoginMethod]
  else [ctxEv, PwEvent.navigate post_url, PwEvent.extract]

/-- The six flat lists produced by the Firefox pipeline on a page whose
single comment contains two email addresses: the independent queries find
no names, profile links, avatars or headlines, one comment, and the
global email extraction yields two emails — so the emails list is longer
than every other list. -/
def firefox_failing_input : FlatLists :=
  { names := []
    profile_links := []
    avatars := []
    headlines := []
    emails := extract_emails ["reach me at a@b.co or c@d.co"]
    comments := ["reach me at a@b.co or c@d.co"] }

/-! ## Helper lemmas -/

theorem matchHere_none_of_no_at (pat : EmailPat) (prev : Option Char)
    (s : List Char) (h : ∀ c ∈ s, c ≠ '@') : matchHere pat prev s = none := by
  simp only [matchHere]
  split
  · rfl
  · split
    · rfl
    · split
      · next c heq =>
        have hc : c ∈ s := List.get?_mem heq
        simp [h c hc]
      · rfl

theorem scanAll_nil_of_no_at (pat : EmailPat) :
    ∀ (fuel : Nat) (prev : Option Char) (s : List Char),
      (∀ c ∈ s, c ≠ '@') → scanAll pat fuel prev s = [] := by
  intro fuel
  induction fuel with
  | zero => intro prev s h; rfl
  | succ n ih =>
    intro prev s h
    cases s with
    | nil => rfl
    | cons c rest =>
      rw [scanAll, matchHere_none_of_no_at pat prev (c :: rest) h]
      exact ih (some c) rest fun x hx => h x (List.mem_cons_of_mem c hx)

theorem emailFindAllCode_nil_of_no_at (s : String)
    (h : ∀ c ∈ s.toList, c ≠ '@') : emailFindAllCode s = [] := by
  unfold emailFindAllCode pyFindAll
  rw [scanAll_nil_of_no_at _ _ _ _ h]
  rfl

theorem extract_data_go (articles : List CommentArticle)
    (acc : List CommentRecord) :
    articles.foldl
      (fun data article =>
        let r := article_record article
        if (r.name != "") || (r.comment != "") then data ++ [r] else data)
      acc
    = acc ++ (articles.filter fun a =>
        ((article_record a).name != "") ||
          ((article_record a).comment != "")).map article_record := by
  induction articles generalizing acc with
  | nil => simp
  | cons a rest ih =>
    rw [List.foldl_cons, ih, List.filter_cons]
    cases hc : ((article_record a).name != "") ||
        ((article_record a).comment != "") with
    | true => simp [hc]
    | false => simp [hc]

theorem pw_extract_error_iff (articles : List PwCommentArticle) :
    pw_extract_data_from_html articles = Except.error PyRunError.nameError ↔
      ∃ a ∈ articles, a.commentSpan.getD "" ≠ "" := by
  induction articles with
  | nil => simp [pw_extract_data_from_html]
  | cons a rest ih =>
    simp only [pw_extract_data_from_html]
    cases hc : (a.commentSpan.getD "" != "") with
    | true =>
      simp only [hc, if_true]
      exact Iff.intro
        (fun _ => ⟨a, List.mem_cons_self a rest, by simpa using hc⟩)
        (fun _ => trivial)
    | false =>
      have hce : a.commentSpan.getD "" = "" := by simpa using hc
      simp only [hc, Bool.false_eq_true, if_false]
      cases hr : pw_extract_data_from_html rest with
      | error e =>
        cases e
        simp only [hr]
        obtain ⟨x, hx, hne⟩ := ih.mp hr
        exact Iff.intro
          (fun _ => ⟨x, List.mem_cons_of_mem a hx, hne⟩)
          (fun _ => trivial)
      | ok data =>
        simp only [hr]
        refine iff_of_false ?_ ?_
        · split <;> intro hcontra <;> exact Except.noConfusion hcontra
        · rintro ⟨x, hx, hne⟩
          rcases List.mem_cons.mp hx with h1 | h2
          · subst h1; exact hne hce
          · have hmem := ih.mpr ⟨x, h2, hne⟩
            rw [hr] at hmem
            exact Except.noConfusion hmem

theorem parse_keeps_use_session : ∀ (argv : List String) (a : PwArgs),
    a.use_session = true →
      ∀ out, parse_pw_args argv a = some out → out.use_session = true
  | [], a, ha, out, h => by
    rw [parse_pw_args.eq_1, Option.some.injEq] at h
    rw [← h]; exact ha
  | [arg], a, ha, out, h => by
    rw [parse_pw_args.eq_3] at h
    split_ifs at h
    all_goals
      first
      | exact Option.noConfusion h
      | (refine parse_keeps_use_session [] _ ?_ out h
         first
         | exact ha
         | rfl)
  | arg :: v :: rest2, a, ha, out, h => by
    rw [parse_pw_args.eq_2] at h
    split_ifs at h
    all_goals
      first
      | exact Option.noConfusion h
      | (refine parse_keeps_use_session (v :: rest2) _ ?_ out h
         first
         | exact ha
         | rfl)
      | (refine parse_keeps_use_session rest2 _ ?_ out h
         exact ha)

theorem scrape_with_session_trace (url : String) (args : PwArgs)
    (mok cok : Bool) (h : args.use_session = true) :
    scrape_post_comments url args true mok cok =
      [PwEvent.contextFromSession, PwEvent.navigate url, PwEvent.extract] := by
  simp [scrape_post_comments, h]

/-! ## Claim theorems -/

/-- Claim C1 (code bug at this input): on six extracted field lists where
the email list is the longest (one comment containing two emails, nothing
else found), the Firefox padding block of src/firefox.py lines 231-240
does NOT pad every list to the maximum over all six (which is 2): max_len
is computed over only five lists (emails omitted), so the other five end
at length 1 while emails stays at length 2, and the aligned-column CSV
gets only one data row (two rows counting the header) instead of the two
data rows the claim requires. -/
theorem firefox_padding_excludes_emails :
    firefox_failing_input.emails = ["a@b.co", "c@d.co"] ∧
    six_max firefox_failing_input = 2 ∧
    (firefox_pad_lists firefox_failing_input).names.length = 1 ∧
    (firefox_pad_lists firefox_failing_input).headlines.length = 1 ∧
    (firefox_pad_lists firefox_failing_input).comments.length = 1 ∧
    (firefox_pad_lists firefox_failing_input).emails.length = 2 ∧
    (write_data2csv (firefox_pad_lists firefox_failing_input)).length = 2 := by
  decide

/-- Claim C2 counterexample: in the Playwright pipeline a missing
config.json does NOT exit with a non-zero code — main prints an error and
returns normally, so the process exit status is 0. -/
theorem playwright_missing_config_exit_zero :
    playwright_load_config ConfigFile.missing =
      StartOutcome.returnedNormally ∧
    process_exit_code (playwright_load_config ConfigFile.missing) =
      some 0 :=
  ⟨rfl, rfl⟩

/-- Claim C2 (amended): when config.json is missing or invalid, the two
Selenium pipelines exit with status 1 before any browser work; the
Playwright pipeline never proceeds past configuration loading either, but
it exits with status 0 on a missing file (error message plus normal
return) and with status 1 on invalid JSON (uncaught JSONDecodeError). -/
theorem config_load_exit_codes (cf : ConfigFile)
    (h : cf = ConfigFile.missing ∨ cf = ConfigFile.invalidJson) :
    process_exit_code (main_py_load_config cf) = some 1 ∧
    process_exit_code (firefox_load_config cf) = some 1 ∧
    (∀ c : ConfigData,
      playwright_load_config cf ≠ StartOutcome.proceeded c) ∧
    process_exit_code (playwright_load_config ConfigFile.missing) =
      some 0 ∧
    process_exit_code (playwright_load_config ConfigFile.invalidJson) =
      some 1 := by
  rcases h with h | h <;> subst h <;>
    exact ⟨rfl, rfl, fun c hc => StartOutcome.noConfusion hc, rfl, rfl⟩

/-- Witness for config_load_exit_codes at the missing-file input. -/
theorem config_load_exit_codes_witness :
    process_exit_code (main_py_load_config ConfigFile.missing) = some 1 ∧
    process_exit_code (firefox_load_config ConfigFile.missing) = some 1 ∧
    (∀ c : ConfigData,
      playwright_load_config ConfigFile.missing ≠
        StartOutcome.proceeded c) ∧
    process_exit_code (playwright_load_config ConfigFile.missing) =
      some 0 ∧
    process_exit_code (playwright_load_config ConfigFile.invalidJson) =
      some 1 :=
  config_load_exit_codes ConfigFile.missing (Or.inl rfl)

/-- Claim C3 counterexample: the extractor does not return exactly the
matches of the pattern as the spec describes it (letters-only final
class, no word boundaries): on the input x@y.a|b the source pattern
matches the whole string through its literal bar in the [A-Z|a-z] class,
while the described pattern matches nothing. -/
theorem email_regex_divergence :
    emailFindAllCode "x@y.a|b" = ["x@y.a|b"] ∧
    emailFindAllClaim "x@y.a|b" = [] ∧
    emailFindAllCode "x@y.a|b" ≠ emailFindAllClaim "x@y.a|b" := by
  decide

/-- Claim C3 (amended): the Email Extraction Utility returns the
re.findall matches of the source pattern — which adds the literal bar to
the final character class and anchors each match with word boundaries,
relative to the pattern the claim describes; on the quoted example body
it returns exactly the two addresses in encounter order, and on any body
containing no at sign it returns the empty sequence. -/
theorem email_extraction_behavior :
    emailFindAllCode "contact me at a.b@example.co and also x@y.io" =
      ["a.b@example.co", "x@y.io"] ∧
    ∀ s : String, (∀ c ∈ s.toList, c ≠ '@') → emailFindAllCode s = [] :=
  ⟨by decide, emailFindAllCode_nil_of_no_at⟩

/-- Witness for email_extraction_behavior: the quoted example plus a
concrete at-sign-free body. -/
theorem email_extraction_behavior_witness :
    emailFindAllCode "contact me at a.b@example.co and also x@y.io" =
      ["a.b@example.co", "x@y.io"] ∧
    emailFindAllCode "no at sign here" = [] :=
  ⟨email_extraction_behavior.1,
    email_extraction_behavior.2 "no at sign here" (by decide)⟩

/-- Claim C4: the grouped per-article extraction strategy of src/main.py
emits exactly one record per comment article whose extracted name or
comment text is non-empty, in document order, discards the others, and on
a document with zero comment articles it returns the empty record list
(no error is possible: the function is total). -/
theorem grouped_extractor_behavior :
    extract_data_from_html [] = [] ∧
    ∀ articles : List CommentArticle,
      extract_data_from_html articles =
        (articles.filter fun a =>
          ((article_record a).name != "") ||
            ((article_record a).comment != "")).map article_record := by
  refine ⟨rfl, fun articles => ?_⟩
  have h := extract_data_go articles []
  simpa [extract_data_from_html] using h

/-- Claim C5: on an empty record sequence the record writer produces no
file at all (the early return precedes opening the file) and reports "No
data to write."; on any non-empty sequence it writes the header derived
from the first record's field names followed by one row per record. -/
theorem record_writer_empty_and_nonempty :
    write_to_csv [] = WriteOutcome.noData ∧
    (∀ filename : String,
      write_to_csv_message [] filename = "No data to write.") ∧
    ∀ (r : CommentRecord) (rs : List CommentRecord),
      write_to_csv (r :: rs) =
        WriteOutcome.file record_keys ((r :: rs).map record_values) :=
  ⟨rfl, fun _ => rfl, fun _ _ => rfl⟩

/-- Claim C6: whenever the session file exists and session reuse is
enabled, the Playwright pipeline's event trace is exactly context-from-
storage-state, navigate, extract — neither login flow appears. -/
theorem pw_session_reuse_skips_login (url : String) (args : PwArgs)
    (mok cok : Bool) (h : args.use_session = true) :
    scrape_post_comments url args true mok cok =
      [PwEvent.contextFromSession, PwEvent.navigate url, PwEvent.extract] ∧
    PwEvent.manualLoginFlow ∉ scrape_post_comments url args true mok cok ∧
    PwEvent.credentialLoginFlow ∉
      scrape_post_comments url args true mok cok := by
  have ht := scrape_with_session_trace url args mok cok h
  refine ⟨ht, ?_, ?_⟩ <;> rw [ht] <;> simp

/-- Witness for pw_session_reuse_skips_login at the default arguments. -/
theorem pw_session_reuse_skips_login_witness :
    scrape_post_comments "https://www.linkedin.com/posts/p1" pw_default_args
        true true true =
      [PwEvent.contextFromSession,
        PwEvent.navigate "https://www.linkedin.com/posts/p1",
        PwEvent.extract] ∧
    PwEvent.manualLoginFlow ∉
      scrape_post_comments "https://www.linkedin.com/posts/p1"
        pw_default_args true true true ∧
    PwEvent.credentialLoginFlow ∉
      scrape_post_comments "https://www.linkedin.com/posts/p1"
        pw_default_args true true true :=
  pw_session_reuse_skips_login "https://www.linkedin.com/posts/p1"
    pw_default_args true true rfl

/-- Claim C7 counterexample: with an empty configured URL, the operator
answering y and then entering an empty URL makes check_post_url return
the empty URL — so the resolver CAN return an empty URL to be used for
navigation. -/
theorem check_post_url_empty_entry :
    check_post_url "" "y" "" = UrlResolution.returns "" := by
  decide

/-- Claim C7 (amended): a non-empty configured URL is returned unchanged;
an empty one makes the resolver prompt and then either return the
operator's entry — unvalidated, so an empty entry is returned as-is — or
terminate the process (status 0 on answer n, status 1 on any other
answer); it never proceeds with the configured empty URL without
prompting or exiting. -/
theorem check_post_url_resolution (url choice entered : String) :
    (url ≠ "" →
      check_post_url url choice entered = UrlResolution.returns url) ∧
    (url = "" →
      check_post_url url choice entered = UrlResolution.returns entered ∨
      ∃ code,
        check_post_url url choice entered =
          UrlResolution.exitStatus code) := by
  constructor
  · intro h
    simp [check_post_url, h]
  · intro h
    subst h
    simp only [check_post_url, if_pos rfl]
    by_cases h1 : py_lower choice = "y"
    · exact Or.inl (by simp [h1])
    · refine Or.inr ?_
      by_cases h2 : py_lower choice = "n"
      · exact ⟨0, by simp [h1, h2]⟩
      · exact ⟨1, by simp [h1, h2]⟩

/-- Witness for check_post_url_resolution: a non-empty URL passes through
unchanged, and the n answer on an empty URL terminates. -/
theorem check_post_url_resolution_witness :
    check_post_url "https://www.linkedin.com/posts/p2" "x" "x" =
      UrlResolution.returns "https://www.linkedin.com/posts/p2" ∧
    (check_post_url "" "n" "x" = UrlResolution.returns "x" ∨
      ∃ code, check_post_url "" "n" "x" = UrlResolution.exitStatus code) :=
  ⟨(check_post_url_resolution "https://www.linkedin.com/posts/p2" "x"
      "x").1 (by decide),
    (check_post_url_resolution "" "n" "x").2 rfl⟩

/-- Claim C8: the Avatar Downloader sanitizes "Jo Ann Smith." to the stem
"jo-ann-smith" (lower-cased, dots removed, spaces to dashes) before
appending ".jpg", and its directory-creation step leaves the directory
present whether or not it already existed, never failing on a
pre-existing directory. -/
theorem avatar_sanitize_and_mkdir :
    sanitize_filenames ["Jo Ann Smith."] = ["jo-ann-smith"] ∧
    avatar_path "avatars" "jo-ann-smith" = "avatars/jo-ann-smith.jpg" ∧
    ∀ (dirs : List String) (d : String),
      d ∈ download_avatars_mkdir dirs d ∧
      (download_avatars_mkdir dirs d = dirs ∨
        download_avatars_mkdir dirs d = d :: dirs) := by
  refine ⟨by decide, by decide, fun dirs d => ?_⟩
  unfold download_avatars_mkdir os_mkdir
  by_cases hd : d ∈ dirs
  · simp [hd]
  · simp [hd]

/-- Claim C9: the Playwright extractor raises NameError (the module never
imports re) on some input — e.g. a single article with comment text — and
in general it errors exactly when at least one article has non-empty
comment text, completing without error only when every article's comment
text is empty. -/
theorem pw_extractor_missing_re_import :
    (∃ articles : List PwCommentArticle,
      pw_extract_data_from_html articles =
        Except.error PyRunError.nameError) ∧
    ∀ articles : List PwCommentArticle,
      (pw_extract_data_from_html articles =
          Except.error PyRunError.nameError ↔
        ∃ a ∈ articles, a.commentSpan.getD "" ≠ "") :=
  ⟨⟨[{ nameTitleSpan := none, headlineDiv := none, imageLink := none,
        commentSpan := some "hi" }], rfl⟩,
    pw_extract_error_iff⟩

/-- Claim C10: every argument vector the Playwright CLI parser accepts
yields use_session = True (store_true with default True can never produce
False), so whenever the session file exists the login-skipping branch is
taken and the trace goes straight to navigation. -/
theorem pw_use_session_always_true (argv : List String) (args : PwArgs)
    (h : parse_pw_args argv pw_default_args = some args) :
    args.use_session = true ∧
    ∀ (url : String) (mok cok : Bool),
      scrape_post_comments url args true mok cok =
        [PwEvent.contextFromSession, PwEvent.navigate url,
          PwEvent.extract] := by
  have hu := parse_keeps_use_session argv pw_default_args rfl args h
  exact ⟨hu, fun url mok cok => scrape_with_session_trace url args mok cok hu⟩

/-- Witness for pw_use_session_always_true at the vector [--headless]. -/
theorem pw_use_session_always_true_witness :
    ({ pw_default_args with headless := true } : PwArgs).use_session =
      true ∧
    scrape_post_comments "https://www.linkedin.com/posts/p3"
        { pw_default_args with headless := true } true false false =
      [PwEvent.contextFromSession,
        PwEvent.navigate "https://www.linkedin.com/posts/p3",
        PwEvent.extract] :=
  ⟨(pw_use_session_always_true ["--headless"]
      { pw_default_args with headless := true } (by decide)).1,
    (pw_use_session_always_true ["--headless"]
      { pw_default_args with headless := true } (by decide)).2
      "https://www.linkedin.com/posts/p3" false false⟩

end Scrapooor
